import Mathlib

/-!  Verification development for the SmartHome price-prediction service
(`src/main.py`): a shallow embedding over `Rat` and `String` of the
deterministic preprocessing pipeline (zone mapping, numeric normalization,
imputation, categorical standardization, one-hot encoding, derived
features), the ensemble combination step and the batch endpoint, together
with theorems settling the specification's claims about them.  -/

namespace SmartHome

/-! ## Python string primitives -/

/-- The ASCII whitespace characters stripped by Python `str.strip()`. -/
def isPySpace (c : Char) : Bool :=
  c = ' ' || c = '\t' || c = '\n' || c = '\r' || c = '\x0b' || c = '\x0c'

/-- Python `str.strip()` (ASCII whitespace, both ends). -/
def pyStrip (s : String) : String :=
  String.mk (((s.toList.dropWhile isPySpace).reverse.dropWhile isPySpace).reverse)

/-- Python `str.lower()` on the ASCII range. -/
def pyLower (s : String) : String :=
  String.mk (s.toList.map Char.toLower)

/-- `begWith pat l` holds when `pat` is an initial segment of `l`. -/
def begWith : List Char → List Char → Bool
  | [], _ => true
  | _ :: _, [] => false
  | a :: as, b :: bs => a == b && begWith as bs

/-- `inside n h` is Python's contiguous-substring test `n in h`
(the empty needle occurs in every haystack). -/
def inside (n : List Char) : List Char → Bool
  | [] => n.isEmpty
  | b :: bs => begWith n (b :: bs) || inside n bs

/-- Python `n in h` on strings. -/
def pyIn (n h : String) : Bool :=
  inside n.toList h.toList

/-- Kernel of Python `str.title()`: an alphabetic character is upper-cased
when the previous character was not alphabetic, lower-cased otherwise. -/
def titleChars : Bool → List Char → List Char
  | _, [] => []
  | prev, c :: t =>
    (if c.isAlpha then (if prev then c.toLower else c.toUpper) else c) :: titleChars c.isAlpha t

/-- Python `str.title()` on the ASCII range. -/
def pyTitle (s : String) : String :=
  String.mk (titleChars false s.toList)

/-! ## Numeric-field normalization (`validate_integers`,
`validate_numeric_with_units` / `clean_numeric_string`) -/

/-- Value of a run of decimal digits, as Python `int` reads it. -/
def digitsVal (l : List Char) : Nat :=
  l.foldl (fun n c => 10 * n + (c.toNat - 48)) 0

/-- First maximal run of decimal digits of the text, as selected by
`re.findall(r'\d+', v)[0]`. -/
def firstDigitRun : List Char → Option (List Char)
  | [] => none
  | c :: t => if c.isDigit then some (c :: t.takeWhile Char.isDigit) else firstDigitRun t

/-- A raw request-field value: absent, a native number, or free text. -/
inductive RawVal where
  | none
  | num (q : ℚ)
  | str (s : String)
deriving DecidableEq

/-- Pydantic validator for the integer-like fields (`kamar_tidur`,
`kamar_mandi`, `carport`, `jumlah_lantai`): text yields the first run of
decimal digits (none found ⇒ null), numbers pass through. -/
def validate_integers : RawVal → Option ℚ
  | .none => Option.none
  | .num q => some q
  | .str s => (firstDigitRun s.toList).map (fun r => (digitsVal r : ℚ))

/-- Split a character list at every `'.'` (Python `str.split('.')`). -/
def splitDot : List Char → List (List Char)
  | [] => [[]]
  | c :: t =>
    if c = '.' then [] :: splitDot t
    else
      match splitDot t with
      | [] => [[c]]
      | h :: r => (c :: h) :: r

/-- Python `float()` on a text that consists only of decimal digits and
dots: one dot at most, at least one digit somewhere, else unparsable. -/
def parseCleanNumber (l : List Char) : Option ℚ :=
  match splitDot l with
  | [a] => if a.isEmpty then Option.none else some (digitsVal a : ℚ)
  | [a, b] =>
    if a.isEmpty && b.isEmpty then Option.none
    else some ((digitsVal a : ℚ) + (digitsVal b : ℚ) / 10 ^ b.length)
  | _ => Option.none

/-- `DataProcessor.clean_numeric_string` (same coercion as the pydantic
validator `validate_numeric_with_units` for `luas_tanah`, `luas_bangunan`,
`daya_listrik`): drop every character that is not a digit, comma or dot,
turn commas into dots, parse as a decimal number; numbers pass through. -/
def clean_numeric_string : RawVal → Option ℚ
  | .none => Option.none
  | .num q => some q
  | .str s =>
    parseCleanNumber
      ((s.toList.filter (fun c => c.isDigit || c = ',' || c = '.')).map
        (fun c => if c = ',' then '.' else c))

/-! ## Zone mapping (`DataProcessor._create_zona_mapping`,
`DataProcessor.map_lokasi_to_zona`) -/

/-- The "outside Semarang" locations, all mapped to `Semarang Lainnya`. -/
def luar_kota : List String :=
  ["Ungaran", "Ungaran Barat", "Ungaran Timur", "Bawen",
   "Bergas", "Boja", "Bandungan", "Mranggen", "Bringin",
   "Pringapus", "Sumowono", "Suruh", "Tengaran", "Tuntang",
   "Getasan", "Pabelan", "Banjardowo", "Kedung Pane",
   "Tengger", "Mangunsari"]

/-- The static location → zone table, in the insertion order of the Python
dict literal, with the `luar_kota` entries appended at the end. -/
def zona_mapping : List (String × String) :=
  [("Semarang Barat", "Semarang Barat"),
   ("Kalibanteng", "Semarang Barat"), ("Kalibanteng Kulon", "Semarang Barat"),
   ("Kalibanteng kidul", "Semarang Barat"), ("Krapyak", "Semarang Barat"),
   ("Manyaran", "Semarang Barat"), ("Ngaliyan", "Semarang Barat"),
   ("Tugu", "Semarang Barat"), ("Tugurejo", "Semarang Barat"),
   ("Jerakah", "Semarang Barat"), ("Puspogiwang", "Semarang Barat"),
   ("Gajah Mungkur", "Semarang Barat"), ("Sampangan", "Semarang Barat"),
   ("Puspowarno", "Semarang Barat"), ("Puri Anjasmoro", "Semarang Barat"),
   ("Anjasmoro", "Semarang Barat"), ("Karangayu", "Semarang Barat"),
   ("Pusponjolo", "Semarang Barat"), ("Graha Padma", "Semarang Barat"),
   ("Kembang Arum", "Semarang Barat"), ("Tawangmas", "Semarang Barat"),
   ("Pamularsih", "Semarang Barat"), ("Mijen", "Semarang Barat"),
   ("Simongan", "Semarang Barat"), ("Bongsari", "Semarang Barat"),
   ("BSB City", "Semarang Barat"),
   ("Semarang Timur", "Semarang Timur"),
   ("Pedurungan", "Semarang Timur"), ("Tlogosari", "Semarang Timur"),
   ("Genuk", "Semarang Timur"), ("Gayamsari", "Semarang Timur"),
   ("Kedungmundu", "Semarang Timur"), ("Ketileng", "Semarang Timur"),
   ("Bangetayu", "Semarang Timur"), ("Bangetayu Wetan", "Semarang Timur"),
   ("Muktiharjo", "Semarang Timur"), ("Gemah", "Semarang Timur"),
   ("Plamongan", "Semarang Timur"), ("Meteseh", "Semarang Timur"),
   ("Mlatiharjo", "Semarang Timur"), ("Banyumanik", "Semarang Timur"),
   ("Tembalang", "Semarang Timur"), ("Bukit Sari", "Semarang Timur"),
   ("Sendangmulyo", "Semarang Timur"), ("Sambiroto", "Semarang Timur"),
   ("Srondol", "Semarang Timur"), ("Pudak Payung", "Semarang Timur"),
   ("Ngesrep", "Semarang Timur"), ("Jangli", "Semarang Timur"),
   ("Penggaron", "Semarang Timur"), ("Citragrand", "Semarang Timur"),
   ("Rejosari", "Semarang Timur"), ("Kalicari", "Semarang Timur"),
   ("Majapahit", "Semarang Timur"), ("Pedalangan", "Semarang Timur"),
   ("Kaligawe", "Semarang Timur"),
   ("Semarang Utara", "Semarang Utara"),
   ("Tanah Mas", "Semarang Utara"), ("Panggung", "Semarang Utara"),
   ("Kuningan", "Semarang Utara"), ("Plombokan", "Semarang Utara"),
   ("Tanjung Mas", "Semarang Utara"), ("Bandarharjo", "Semarang Utara"),
   ("Kampung Kali", "Semarang Utara"),
   ("Semarang Selatan", "Semarang Selatan"),
   ("Wonodri", "Semarang Selatan"), ("Pleburan", "Semarang Selatan"),
   ("Candisari", "Semarang Selatan"), ("Jatingaleh", "Semarang Selatan"),
   ("Candi Golf", "Semarang Selatan"), ("Jomblang", "Semarang Selatan"),
   ("Lamper", "Semarang Selatan"), ("Karang Anyar", "Semarang Selatan"),
   ("Karang Rejo", "Semarang Selatan"), ("Karang Tempel", "Semarang Selatan"),
   ("Karang kidul", "Semarang Selatan"), ("Siranda", "Semarang Selatan"),
   ("Sompok", "Semarang Selatan"), ("Mugosari", "Semarang Selatan"),
   ("Tlaga Bodas", "Semarang Selatan"), ("Gajahmada", "Semarang Selatan"),
   ("Sultan Agung", "Semarang Selatan"), ("Peterongan", "Semarang Selatan"),
   ("Dr Cipto Mangunkusomo", "Semarang Selatan"), ("Atmodirono", "Semarang Selatan"),
   ("Bulustalan", "Semarang Selatan"), ("Pandansari", "Semarang Selatan"),
   ("Gajahmungkur", "Semarang Selatan"), ("Gunung Pati", "Semarang Selatan"),
   ("Barusari", "Semarang Selatan"), ("Pati Wetan", "Semarang Selatan"),
   ("Semarang Tengah", "Semarang Tengah"),
   ("Simpang Lima", "Semarang Tengah"), ("Pemuda", "Semarang Tengah"),
   ("Sekayu", "Semarang Tengah"), ("Gabahan", "Semarang Tengah"),
   ("Kranggan", "Semarang Tengah"), ("Jagalan", "Semarang Tengah"),
   ("Miroto", "Semarang Tengah"), ("Pindrikan", "Semarang Tengah"),
   ("Pekunden", "Semarang Tengah"), ("Purwosari", "Semarang Tengah"),
   ("Pendirikan", "Semarang Tengah"), ("Brumbungan", "Semarang Tengah"),
   ("Mataram", "Semarang Tengah"), ("Kartini", "Semarang Tengah"),
   ("Bugangan", "Semarang Tengah"), ("Citarum", "Semarang Tengah"),
   ("Indraprasta", "Semarang Tengah"), ("Sidodadi Timur", "Semarang Tengah"),
   ("Kawi", "Semarang Tengah"), ("Halmahera", "Semarang Tengah"),
   ("Kaliwungu", "Semarang Tengah"), ("Krakatau", "Semarang Tengah"),
   ("Nias", "Semarang Tengah"), ("Semeru", "Semarang Tengah"),
   ("Sri Rejeki", "Semarang Tengah"), ("Kenconowungu", "Semarang Tengah"),
   ("Dempel", "Semarang Tengah"), ("Papandayan", "Semarang Tengah"),
   ("pekunden", "Semarang Tengah"), ("Cabean", "Semarang Tengah"),
   ("Gedung Batu", "Semarang Tengah"), ("Greenwood", "Semarang Tengah"),
   ("Karang Turi", "Semarang Tengah"), ("Kauman", "Semarang Tengah"),
   ("Purwodinatan", "Semarang Tengah"), ("Sarirejo", "Semarang Tengah"),
   ("papandayan", "Semarang Tengah")]
  ++ luar_kota.map (fun l => (l, "Semarang Lainnya"))

/-- Python dict lookup on the table (exact, case-sensitive key match). -/
def lookupDict : List (String × String) → String → Option String
  | [], _ => Option.none
  | (k, z) :: rest, l => if k = l then some z else lookupDict rest l

/-- The fuzzy-match test of `map_lokasi_to_zona`: case-insensitive
substring containment in either direction. -/
def fuzzyTest (key cand : String) : Bool :=
  pyIn (pyLower key) (pyLower cand) || pyIn (pyLower cand) (pyLower key)

/-- The fuzzy-matching loop of `map_lokasi_to_zona`: first table entry
(in insertion order) passing `fuzzyTest` wins. -/
def fuzzyLoop : List (String × String) → String → Option String
  | [], _ => Option.none
  | (k, z) :: rest, l => if fuzzyTest k l then some z else fuzzyLoop rest l

/-- Remove every occurrence of `", Semarang"` (Python
`str.replace(", Semarang", "")`, left to right, non-overlapping). -/
def removeSemarangTag : List Char → List Char
  | [] => []
  | c :: t =>
    if begWith (", Semarang".toList) (c :: t) then
      removeSemarangTag (t.drop 9)
    else
      c :: removeSemarangTag t
  termination_by l => l.length
  decreasing_by
    · simp only [List.length_drop, List.length_cons]
      omega
    · simp only [List.length_cons]
      omega

/-- The location normalization performed by `map_lokasi_to_zona` before
lookup: strip whitespace, and if `", Semarang"` occurs, delete every
occurrence of it and strip again. -/
def normalize_lokasi (lokasi : String) : String :=
  let s := pyStrip lokasi
  if pyIn ", Semarang" s then pyStrip (String.mk (removeSemarangTag s.toList)) else s

/-- `DataProcessor.map_lokasi_to_zona`: null → `Semarang Lainnya`; else
normalize, try the exact dict lookup, then the fuzzy loop, then fall back
to `Semarang Lainnya`. -/
def map_lokasi_to_zona (lokasi : Option String) : String :=
  match lokasi with
  | Option.none => "Semarang Lainnya"
  | some l =>
    let c := normalize_lokasi l
    match lookupDict zona_mapping c with
    | some z => z
    | Option.none =>
      match fuzzyLoop zona_mapping c with
      | some z => z
      | Option.none => "Semarang Lainnya"


/-! ## Electrical-capacity classification and imputation heuristics -/

/-- `DataProcessor.classify_daya`: the electrical-capacity tier ladder. -/
def classify_daya (daya : Option ℚ) : String :=
  match daya with
  | Option.none => "Menengah_1300VA"
  | some d =>
    if d ≤ 450 then "Dasar_450VA"
    else if d ≤ 900 then "Standar_900VA"
    else if d ≤ 1300 then "Menengah_1300VA"
    else if d ≤ 2200 then "Tinggi_2200VA"
    else if d ≤ 3500 then "Premium_3500VA"
    else if d ≤ 5500 then "Luxury_5500VA"
    else "Ultra_5500VA_Plus"

/-- `DataProcessor.get_daya_default_by_price_category`: electrical-capacity
estimate from building area and bedroom count. -/
def get_daya_default_by_price_category (luas_bangunan kamar_tidur : ℚ) : ℚ :=
  if luas_bangunan ≥ 200 ∨ kamar_tidur ≥ 4 then 2200
  else if luas_bangunan ≥ 120 ∨ kamar_tidur ≥ 3 then 1300
  else if luas_bangunan ≥ 70 then 900
  else 450

/-- `DataProcessor.get_lantai_default_by_size`: floor-count estimate from
building area. -/
def get_lantai_default_by_size (luas_bangunan : ℚ) : ℚ :=
  if luas_bangunan ≥ 150 then 2 else 1

/-! ## Categorical standardization (`DataProcessor.standardize_kondisi`) -/

/-- The two categorical-condition kinds. -/
inductive KType where
  | properti
  | perabotan
deriving DecidableEq

/-- The fixed synonym table of `standardize_kondisi`, in the insertion
order of the Python dict literals. -/
def kondisi_mapping : KType → List (String × String)
  | .properti =>
    [("Bagus", "Bagus"),
     ("Baik", "Bagus"),
     ("Good", "Bagus"),
     ("Sangat Bagus", "Bagus"),
     ("Siap Huni", "Bagus"),
     ("Terawat", "Bagus"),
     ("Renovasi", "Renovasi"),
     ("Perlu Renovasi", "Renovasi"),
     ("Rusak", "Renovasi"),
     ("Butuh Renovasi", "Renovasi")]
  | .perabotan =>
    [("Tidak Berperabot", "Tidak Berperabot"),
     ("Unfurnished", "Tidak Berperabot"),
     ("Kosong", "Tidak Berperabot"),
     ("Semi Furnished", "Semi Furnished"),
     ("Semi Berperabot", "Semi Furnished"),
     ("Sebagian Berperabot", "Semi Furnished"),
     ("Furnished", "Furnished"),
     ("Berperabot", "Furnished"),
     ("Full Furnished", "Furnished"),
     ("Lengkap", "Furnished")]

/-- The match test of `standardize_kondisi`: case-insensitive substring
containment in either direction between a table key and the candidate. -/
def kondisiTest (key cand : String) : Bool :=
  pyIn (pyLower key) (pyLower cand) || pyIn (pyLower cand) (pyLower key)

/-- The matching loop of `standardize_kondisi`: first table entry (in
insertion order) passing `kondisiTest` wins. -/
def kondisiLoop : List (String × String) → String → Option String
  | [], _ => Option.none
  | (k, v) :: rest, c => if kondisiTest k c then some v else kondisiLoop rest c

/-- `DataProcessor.standardize_kondisi`: null → the kind's default
canonical label; else title-case the stripped text, run the matching loop,
and on no match fall back to the value of the FIRST table key. -/
def standardize_kondisi (kondisi : Option String) (t : KType) : String :=
  match kondisi with
  | Option.none =>
    match t with
    | .properti => "Bagus"
    | .perabotan => "Tidak Berperabot"
  | some s =>
    let c := pyTitle (pyStrip s)
    match kondisiLoop (kondisi_mapping t) c with
    | some v => v
    | Option.none => ((kondisi_mapping t).headD ("", "")).2


/-! ## Input records, imputation and range clamps
(`SmartHomePricePrediction.preprocess_input`, steps 1-4) -/

/-- The request payload (`PropertyInput` pydantic model): `lokasi` is
required text, the seven numeric fields arrive as number, text or null,
the two condition fields as text or null. -/
structure PropertyInput where
  lokasi : String
  kamar_tidur : RawVal
  kamar_mandi : RawVal
  luas_tanah : RawVal
  luas_bangunan : RawVal
  carport : RawVal
  daya_listrik : RawVal
  jumlah_lantai : RawVal
  kondisi_properti : Option String
  kondisi_perabotan : Option String
deriving DecidableEq

/-- The record after the pydantic validators and preprocessing step 2
(numeric cleaning): every numeric field is a number or null. -/
structure ParsedInput where
  kamar_tidur : Option ℚ
  kamar_mandi : Option ℚ
  luas_tanah : Option ℚ
  luas_bangunan : Option ℚ
  carport : Option ℚ
  daya_listrik : Option ℚ
  jumlah_lantai : Option ℚ
  kondisi_properti : Option String
  kondisi_perabotan : Option String
deriving DecidableEq

/-- Field normalization: the pydantic validators followed by preprocessing
step 2, which is the identity on their output (`float` on an integer-like
value, `clean_numeric_string` on an already-clean number or null). -/
def parse_input (p : PropertyInput) : ParsedInput :=
  { kamar_tidur := validate_integers p.kamar_tidur,
    kamar_mandi := validate_integers p.kamar_mandi,
    luas_tanah := clean_numeric_string p.luas_tanah,
    luas_bangunan := clean_numeric_string p.luas_bangunan,
    carport := validate_integers p.carport,
    daya_listrik := clean_numeric_string p.daya_listrik,
    jumlah_lantai := validate_integers p.jumlah_lantai,
    kondisi_properti := p.kondisi_properti,
    kondisi_perabotan := p.kondisi_perabotan }

/-- The fully-populated record downstream of imputation. -/
structure Record where
  kamar_tidur : ℚ
  kamar_mandi : ℚ
  luas_tanah : ℚ
  luas_bangunan : ℚ
  carport : ℚ
  daya_listrik : ℚ
  jumlah_lantai : ℚ
  kondisi_properti : String
  kondisi_perabotan : String
deriving DecidableEq

/-- The `None or value <= 0` test guarding imputation rules 1-5. -/
def needsDefault (v : Option ℚ) : Bool :=
  match v with
  | Option.none => true
  | some x => decide (x ≤ 0)

/-- Replace a null or non-positive value by the default. -/
def orDefault (v : Option ℚ) (d : ℚ) : ℚ :=
  match v with
  | Option.none => d
  | some x => if x ≤ 0 then d else x

/-- Preprocessing step 3 (imputation), in source order: fixed defaults for
rooms and areas, default carport only when null, capacity and floor
heuristics computed from the already-imputed area and bedroom values,
then condition standardization; the second component is `missing_fields`
in the order the rules fire. -/
def impute_record (p : ParsedInput) : Record × List String :=
  let kt := orDefault p.kamar_tidur 3
  let km := orDefault p.kamar_mandi 2
  let lt := orDefault p.luas_tanah 150
  let lb := orDefault p.luas_bangunan 120
  let cp := match p.carport with
            | Option.none => (1 : ℚ)
            | some v => v
  let dl := match p.daya_listrik with
            | Option.none => get_daya_default_by_price_category lb kt
            | some v => if v ≤ 0 then get_daya_default_by_price_category lb kt else v
  let jl := match p.jumlah_lantai with
            | Option.none => get_lantai_default_by_size lb
            | some v => if v ≤ 0 then get_lantai_default_by_size lb else v
  let missing :=
    (if needsDefault p.kamar_tidur then ["Kamar Tidur"] else []) ++
    (if needsDefault p.kamar_mandi then ["Kamar Mandi"] else []) ++
    (if needsDefault p.luas_tanah then ["Luas Tanah"] else []) ++
    (if needsDefault p.luas_bangunan then ["Luas Bangunan"] else []) ++
    (if p.carport.isNone then ["Carport"] else []) ++
    (if needsDefault p.daya_listrik then ["Daya Listrik"] else []) ++
    (if needsDefault p.jumlah_lantai then ["Jumlah Lantai"] else [])
  ({ kamar_tidur := kt, kamar_mandi := km, luas_tanah := lt, luas_bangunan := lb,
     carport := cp, daya_listrik := dl, jumlah_lantai := jl,
     kondisi_properti := standardize_kondisi p.kondisi_properti .properti,
     kondisi_perabotan := standardize_kondisi p.kondisi_perabotan .perabotan },
   missing)

/-- Preprocessing step 4 (range validation): silently cap each numeric
field from above. -/
def clamp_record (r : Record) : Record :=
  { r with
    kamar_tidur := if r.kamar_tidur > 10 then 10 else r.kamar_tidur,
    kamar_mandi := if r.kamar_mandi > 10 then 10 else r.kamar_mandi,
    luas_tanah := if r.luas_tanah > 2000 then 2000 else r.luas_tanah,
    luas_bangunan := if r.luas_bangunan > 1000 then 1000 else r.luas_bangunan,
    carport := if r.carport > 5 then 5 else r.carport,
    jumlah_lantai := if r.jumlah_lantai > 4 then 4 else r.jumlah_lantai }

/-- One full Imputer pass: normalization-level record in, imputed and
clamped record out, plus the imputed-field diagnostic list. -/
def impute_and_clamp (p : ParsedInput) : Record × List String :=
  let im := impute_record p
  (clamp_record im.1, im.2)

/-- Reinject a fully-populated record as an input record, for feeding the
Imputer its own output. -/
def record_to_input (r : Record) : ParsedInput :=
  { kamar_tidur := some r.kamar_tidur,
    kamar_mandi := some r.kamar_mandi,
    luas_tanah := some r.luas_tanah,
    luas_bangunan := some r.luas_bangunan,
    carport := some r.carport,
    daya_listrik := some r.daya_listrik,
    jumlah_lantai := some r.jumlah_lantai,
    kondisi_properti := some r.kondisi_properti,
    kondisi_perabotan := some r.kondisi_perabotan }

/-! ## One-hot encoding and derived features
(`preprocess_input`, steps 5-8) -/

/-- The six zone indicator columns, in source order. -/
def all_zones : List String :=
  ["Semarang Barat", "Semarang Timur", "Semarang Utara",
   "Semarang Selatan", "Semarang Tengah", "Semarang Lainnya"]

/-- The seven electrical-tier indicator columns, in source order. -/
def all_daya : List String :=
  ["Dasar_450VA", "Standar_900VA", "Menengah_1300VA", "Tinggi_2200VA",
   "Premium_3500VA", "Luxury_5500VA", "Ultra_5500VA_Plus"]

/-- The two property-condition indicator columns. -/
def all_kondisi_properti : List String := ["Bagus", "Renovasi"]

/-- The three furnishing-condition indicator columns. -/
def all_kondisi_perabotan : List String :=
  ["Tidak Berperabot", "Semi Furnished", "Furnished"]

/-- One-hot expansion `(df[col] == cat).astype(int)` over a category
list. -/
def oneHot (cats : List String) (v : String) : List ℚ :=
  cats.map (fun c => if v = c then 1 else 0)

/-- Preprocessing step 8: the derived numeric features, as named feature
columns computed from the imputed, clamped record. -/
def derived_features (r : Record) : List (String × ℚ) :=
  [("Rasio_Bangunan_Tanah", r.luas_bangunan / r.luas_tanah),
   ("Total_Luas", r.luas_bangunan + r.luas_tanah),
   ("Luas_per_Kamar", r.luas_bangunan / r.kamar_tidur),
   ("Rasio_Kamar_Mandi", r.kamar_mandi / r.kamar_tidur),
   ("Daya_per_Luas", r.daya_listrik / r.luas_bangunan),
   ("Price_per_sqm", 0),
   ("Kamar_x_Daya", r.kamar_tidur * r.daya_listrik),
   ("Total_Rooms", r.kamar_tidur + r.kamar_mandi),
   ("Luxury_Score", r.daya_listrik / 1000 * r.luas_bangunan * r.jumlah_lantai),
   ("Efficiency_Score", r.luas_bangunan / r.luas_tanah)]

/-- The observable outcome of `preprocess_input` steps 1-8: the imputed
and clamped record, the imputation diagnostics, the mapped zone and the
four one-hot indicator groups. -/
structure PreOut where
  record : Record
  missing_fields : List String
  zona : String
  zona_onehot : List ℚ
  daya_onehot : List ℚ
  properti_onehot : List ℚ
  perabotan_onehot : List ℚ
deriving DecidableEq

/-- `SmartHomePricePrediction.preprocess_input`, steps 1-8: normalize,
impute, clamp, map the zone from the raw location, and one-hot encode the
zone, the capacity tier of the imputed capacity, and both standardized
conditions. -/
def preprocess_input (inp : PropertyInput) : PreOut :=
  let p := parse_input inp
  let im := impute_record p
  let r := clamp_record im.1
  let zona := map_lokasi_to_zona (some inp.lokasi)
  { record := r,
    missing_fields := im.2,
    zona := zona,
    zona_onehot := oneHot all_zones zona,
    daya_onehot := oneHot all_daya (classify_daya (some r.daya_listrik)),
    properti_onehot := oneHot all_kondisi_properti r.kondisi_properti,
    perabotan_onehot := oneHot all_kondisi_perabotan r.kondisi_perabotan }

/-! ## Ensemble prediction (`SmartHomePricePrediction.predict`,
`classify_harga`) -/

/-- `SmartHomePricePrediction.classify_harga`: the price-category
ladder. -/
def classify_harga (price : ℚ) : String :=
  if price < 500000000 then "Ekonomis"
  else if price < 1000000000 then "Menengah Bawah"
  else if price < 2000000000 then "Menengah"
  else if price < 3500000000 then "Menengah Atas"
  else if price < 6000000000 then "Premium"
  else "Luxury"

/-- The loaded model-artifact bundle: named per-model predictors (in dict
iteration order), an optional dedicated ensemble meta-model, and the
optional per-model weight list. -/
structure Bundle where
  models : List (String × (List ℚ → ℚ))
  ensemble_model : Option (List ℚ → ℚ)
  model_weights : List ℚ

/-- `np.mean`: arithmetic mean. -/
def np_mean (xs : List ℚ) : ℚ :=
  xs.sum / (xs.length : ℚ)

/-- `np.average(xs, weights := ws)`: weighted average. -/
def np_average (xs ws : List ℚ) : ℚ :=
  (List.zipWith (· * ·) xs ws).sum / ws.sum

/-- Population variance, the square of `np.std`. -/
def pop_variance (xs : List ℚ) : ℚ :=
  np_mean (xs.map (fun x => (x - np_mean xs) ^ 2))

/-- The per-model prediction scalars on a feature vector, in model
iteration order. -/
def model_predictions (B : Bundle) (x : List ℚ) : List ℚ :=
  B.models.map (fun m => m.2 x)

/-- The final price of `SmartHomePricePrediction.predict`: the weighted
average when weights are configured, else the mean, overridden by the
dedicated ensemble meta-model when present, then clamped to be
non-negative. -/
def final_prediction (B : Bundle) (x : List ℚ) : ℚ :=
  let preds := model_predictions B x
  let ensemble_pred :=
    if B.model_weights ≠ [] then np_average preds B.model_weights else np_mean preds
  let fp :=
    match B.ensemble_model with
    | some em => em x
    | Option.none => ensemble_pred
  max fp 0

/-- The square of the reported uncertainty: `np.std(predictions)` when
more than one model is loaded, else `0`. -/
def uncertainty_sq (B : Bundle) (x : List ℚ) : ℚ :=
  let preds := model_predictions B x
  if preds.length > 1 then pop_variance preds else 0

/-! ## Batch prediction (`batch_predict` endpoint) -/

/-- One entry of a batch response: a prediction or an error record, each
tagged with the item's original index. -/
inductive BatchItem where
  | ok (index : Nat) (price : ℚ)
  | err (index : Nat) (msg : String)
deriving DecidableEq

/-- Whether an entry is error-tagged (Python `'error' in r`). -/
def BatchItem.isErr : BatchItem → Bool
  | .err _ _ => true
  | .ok _ _ => false

/-- The batch response body. -/
structure BatchOut where
  total_properties : Nat
  successful_predictions : Nat
  failed_predictions : Nat
  results : List BatchItem
deriving DecidableEq

/-- Python `enumerate`, starting at a given index. -/
def enumFromIdx {α : Type} : Nat → List α → List (Nat × α)
  | _, [] => []
  | n, a :: t => (n, a) :: enumFromIdx (n + 1) t

/-- One loop iteration of `batch_predict`: the per-item predictor outcome
as a result entry tagged with the item's index, a failure isolated as an
error-tagged entry. -/
def batch_item (f : PropertyInput → Except String ℚ) (ip : Nat × PropertyInput) : BatchItem :=
  match f ip.2 with
  | .ok r => BatchItem.ok ip.1 r
  | .error e => BatchItem.err ip.1 e

/-- Whether the per-item predictor failed on an item. -/
def exceptFailed (e : Except String ℚ) : Bool :=
  match e with
  | .error _ => true
  | .ok _ => false

/-- The accepted-batch loop of `batch_predict`: run the per-item predictor
on every item in order, isolating a failure as an error-tagged entry at
the item's index, then attach the success/failure counts. -/
def run_batch (f : PropertyInput → Except String ℚ) (props : List PropertyInput) : BatchOut :=
  let results := (enumFromIdx 0 props).map (batch_item f)
  { total_properties := props.length,
    successful_predictions := (results.filter (fun r => ! r.isErr)).length,
    failed_predictions := (results.filter (fun r => r.isErr)).length,
    results := results }

/-- The `batch_predict` endpoint over an abstract per-item predictor `f`
(the outcome of `predictor.predict` on one item): more than 100 items is
rejected up front, otherwise the whole batch is processed. -/
def batch_predict (f : PropertyInput → Except String ℚ) (props : List PropertyInput) :
    Except String BatchOut :=
  if props.length > 100 then
    .error "Maximum 100 properties per batch request"
  else
    .ok (run_batch f props)

/-! ## Concrete inputs used by the claims -/

/-- The input of the spec's end-to-end preprocessing test:
`{location: "Tembalang", building_area: "120 m2", bedrooms: 3}`, all
other fields missing. -/
def c1_input : PropertyInput :=
  { lokasi := "Tembalang",
    kamar_tidur := RawVal.num 3,
    kamar_mandi := RawVal.none,
    luas_tanah := RawVal.none,
    luas_bangunan := RawVal.str "120 m2",
    carport := RawVal.none,
    daya_listrik := RawVal.none,
    jumlah_lantai := RawVal.none,
    kondisi_properti := Option.none,
    kondisi_perabotan := Option.none }

/-- A fully-populated, in-range record whose furnishing condition is the
free-text synonym `Lengkap`. -/
def lengkap_record : Record :=
  { kamar_tidur := 3, kamar_mandi := 2, luas_tanah := 150, luas_bangunan := 120,
    carport := 1, daya_listrik := 1300, jumlah_lantai := 1,
    kondisi_properti := "Bagus", kondisi_perabotan := "Lengkap" }

/-- The spec's ensemble test bundle: three models returning `900e6`,
`1000e6` and `1100e6`, no meta-model, equal weights. -/
def c4_bundle : Bundle :=
  { models := [("model_a", fun _ => 900000000),
               ("model_b", fun _ => 1000000000),
               ("model_c", fun _ => 1100000000)],
    ensemble_model := Option.none,
    model_weights := [1, 1, 1] }

/-- A bundle with a dedicated ensemble meta-model. -/
def c4_meta_bundle : Bundle :=
  { models := [("model_a", fun _ => 500000000)],
    ensemble_model := some (fun _ => 1500000000),
    model_weights := [] }

/-- A bundle with configured weights and no meta-model. -/
def c4_weight_bundle : Bundle :=
  { models := [("model_a", fun _ => 1), ("model_b", fun _ => 4)],
    ensemble_model := Option.none,
    model_weights := [2, 1] }

/-- A bundle with neither meta-model nor weights. -/
def c4_mean_bundle : Bundle :=
  { models := [("model_a", fun _ => 4), ("model_b", fun _ => 6)],
    ensemble_model := Option.none,
    model_weights := [] }

/-- A batch item on which the test predictor fails. -/
def c7_fail_input : PropertyInput :=
  { c1_input with lokasi := "gagal" }

/-- A per-item predictor failing exactly on the `gagal` location. -/
def c7_predictor : PropertyInput → Except String ℚ :=
  fun p => if p.lokasi = "gagal" then Except.error "boom" else Except.ok 42

/-- A 3-item batch whose middle item fails. -/
def c7_props : List PropertyInput :=
  [c1_input, c7_fail_input, c1_input]

/-! ## Support lemmas -/

/-- Python `enumerate` preserves length. -/
theorem enumFromIdx_length {α : Type} (n : Nat) (l : List α) :
    (enumFromIdx n l).length = l.length := by
  induction l generalizing n with
  | nil => rfl
  | cons a t ih => simp [enumFromIdx, ih]

/-- The `i`-th entry of `enumerate` pairs the shifted index with the
`i`-th element. -/
theorem enumFromIdx_getElem? {α : Type} (n i : Nat) (l : List α) :
    (enumFromIdx n l)[i]? = l[i]?.map (fun a => (n + i, a)) := by
  induction l generalizing n i with
  | nil => simp [enumFromIdx]
  | cons a t ih =>
    cases i with
    | zero => simp [enumFromIdx]
    | succ j =>
      simp only [enumFromIdx, List.getElem?_cons_succ, ih]
      rw [show n + 1 + j = n + (j + 1) from by omega]

/-- A batch entry is error-tagged exactly when the per-item predictor
failed on the item. -/
theorem batch_item_isErr (f : PropertyInput → Except String ℚ) (ip : Nat × PropertyInput) :
    (batch_item f ip).isErr = exceptFailed (f ip.2) := by
  cases h : f ip.2 <;> simp [batch_item, h, BatchItem.isErr, exceptFailed]

/-- The error-tagged entries of the batch loop are in bijection with the
failing items. -/
theorem filterErr_length (f : PropertyInput → Except String ℚ) (n : Nat)
    (props : List PropertyInput) :
    (((enumFromIdx n props).map (batch_item f)).filter (fun r => r.isErr)).length
      = (props.filter (fun p => exceptFailed (f p))).length := by
  induction props generalizing n with
  | nil => rfl
  | cons p t ih =>
    simp only [enumFromIdx, List.map_cons, List.filter_cons, batch_item_isErr]
    cases h : exceptFailed (f p) <;> simp [h, ih]

/-- The successful entries of the batch loop are in bijection with the
succeeding items. -/
theorem filterOk_length (f : PropertyInput → Except String ℚ) (n : Nat)
    (props : List PropertyInput) :
    (((enumFromIdx n props).map (batch_item f)).filter (fun r => ! r.isErr)).length
      = (props.filter (fun p => ! exceptFailed (f p))).length := by
  induction props generalizing n with
  | nil => rfl
  | cons p t ih =>
    simp only [enumFromIdx, List.map_cons, List.filter_cons, batch_item_isErr]
    cases h : exceptFailed (f p) <;> simp [h, ih]

/-- A filter and its complement split a list's length. -/
theorem filter_not_length {α : Type} (q : α → Bool) (l : List α) :
    (l.filter q).length + (l.filter (fun a => ! q a)).length = l.length := by
  induction l with
  | nil => rfl
  | cons a t ih =>
    cases h : q a
    · have := ih
      simp only [List.filter_cons, h, Bool.not_false, if_true, Bool.false_eq_true,
        if_false, List.length_cons]
      omega
    · have := ih
      simp only [List.filter_cons, h, Bool.not_true, if_true, Bool.false_eq_true,
        if_false, List.length_cons]
      omega

/-- The dict lookup is the first exact key match of the table. -/
theorem lookupDict_eq_find (l : List (String × String)) (c : String) :
    lookupDict l c = (l.find? (fun p => p.1 == c)).map Prod.snd := by
  induction l with
  | nil => rfl
  | cons h t ih =>
    obtain ⟨k, z⟩ := h
    by_cases hk : k = c
    · simp [lookupDict, hk, List.find?_cons_of_pos]
    · rw [lookupDict, if_neg hk, List.find?_cons_of_neg _ (by simpa using hk), ih]

/-- The fuzzy loop is the first fuzzy match of the table. -/
theorem fuzzyLoop_eq_find (l : List (String × String)) (c : String) :
    fuzzyLoop l c = (l.find? (fun p => fuzzyTest p.1 c)).map Prod.snd := by
  induction l with
  | nil => rfl
  | cons h t ih =>
    obtain ⟨k, z⟩ := h
    by_cases hk : fuzzyTest k c
    · simp [fuzzyLoop, hk, List.find?_cons_of_pos]
    · rw [fuzzyLoop, if_neg (by simpa using hk),
        List.find?_cons_of_neg _ (by simpa using hk), ih]

/-- The condition-matching loop is the first synonym match of the table. -/
theorem kondisiLoop_eq_find (l : List (String × String)) (c : String) :
    kondisiLoop l c = (l.find? (fun p => kondisiTest p.1 c)).map Prod.snd := by
  induction l with
  | nil => rfl
  | cons h t ih =>
    obtain ⟨k, z⟩ := h
    by_cases hk : kondisiTest k c
    · simp [kondisiLoop, hk, List.find?_cons_of_pos]
    · rw [kondisiLoop, if_neg (by simpa using hk),
        List.find?_cons_of_neg _ (by simpa using hk), ih]

/-- A dict-lookup result is one of the table's values. -/
theorem lookupDict_mem {l : List (String × String)} {c z : String}
    (h : lookupDict l c = some z) : z ∈ l.map Prod.snd := by
  rw [lookupDict_eq_find] at h
  obtain ⟨e, he, hz⟩ := Option.map_eq_some'.mp h
  exact hz ▸ List.mem_map_of_mem Prod.snd (List.mem_of_find?_eq_some he)

/-- A fuzzy-loop result is one of the table's values. -/
theorem fuzzyLoop_mem {l : List (String × String)} {c z : String}
    (h : fuzzyLoop l c = some z) : z ∈ l.map Prod.snd := by
  rw [fuzzyLoop_eq_find] at h
  obtain ⟨e, he, hz⟩ := Option.map_eq_some'.mp h
  exact hz ▸ List.mem_map_of_mem Prod.snd (List.mem_of_find?_eq_some he)

/-- A condition-loop result is one of the table's values. -/
theorem kondisiLoop_mem {l : List (String × String)} {c z : String}
    (h : kondisiLoop l c = some z) : z ∈ l.map Prod.snd := by
  rw [kondisiLoop_eq_find] at h
  obtain ⟨e, he, hz⟩ := Option.map_eq_some'.mp h
  exact hz ▸ List.mem_map_of_mem Prod.snd (List.mem_of_find?_eq_some he)

set_option maxRecDepth 8192 in
/-- Every zone value of the static table is among the six zone
categories. -/
theorem zona_mapping_values : ∀ z ∈ zona_mapping.map Prod.snd, z ∈ all_zones := by
  decide

/-- The mapped zone is always one of the six zone categories. -/
theorem map_lokasi_mem (lokasi : Option String) :
    map_lokasi_to_zona lokasi ∈ all_zones := by
  match lokasi with
  | Option.none => decide
  | some l =>
    simp only [map_lokasi_to_zona]
    split
    · rename_i z h1
      exact zona_mapping_values z (lookupDict_mem h1)
    · split
      · rename_i z h2
        exact zona_mapping_values z (fuzzyLoop_mem h2)
      · decide

/-- A standardized condition is always one of the table's canonical
values. -/
theorem standardize_mem (k : Option String) (t : KType) :
    standardize_kondisi k t ∈ (kondisi_mapping t).map Prod.snd := by
  match k with
  | Option.none => cases t <;> decide
  | some s =>
    simp only [standardize_kondisi]
    split
    · rename_i v h
      exact kondisiLoop_mem h
    · cases t <;> decide

/-- The capacity tier is always one of the seven tier categories. -/
theorem classify_daya_mem (d : Option ℚ) : classify_daya d ∈ all_daya := by
  rcases d with _ | q
  · decide
  · simp only [classify_daya]
    split_ifs <;> decide

/-- On a category outside the list the one-hot row is all zeros. -/
theorem oneHot_of_not_mem {cats : List String} {v : String} (h : v ∉ cats) :
    oneHot cats v = List.replicate cats.length 0 := by
  induction cats with
  | nil => rfl
  | cons c cs ih =>
    have hvc : v ≠ c := fun he => h (he ▸ List.mem_cons_self c cs)
    rw [oneHot] at ih ⊢
    simp only [List.map_cons, List.length_cons, List.replicate_succ, if_neg hvc]
    exact congrArg _ (ih (fun hm => h (List.mem_cons_of_mem c hm)))

/-- On a category of a duplicate-free list, the one-hot row holds exactly
one `1` and zeros elsewhere. -/
theorem oneHot_count {cats : List String} {v : String}
    (hv : v ∈ cats) (hnd : cats.Nodup) :
    (oneHot cats v).count 1 = 1 ∧ (oneHot cats v).count 0 = cats.length - 1 := by
  induction cats with
  | nil => cases hv
  | cons c cs ih =>
    rw [oneHot, List.map_cons]
    by_cases hvc : v = c
    · have hnot : v ∉ cs := fun hm => (List.nodup_cons.mp hnd).1 (hvc ▸ hm)
      rw [if_pos hvc, show (cs.map fun x => if v = x then (1 : ℚ) else 0) = oneHot cs v from rfl,
        oneHot_of_not_mem hnot]
      constructor
      · rw [List.count_cons_self, List.count_replicate]
        norm_num
      · rw [List.count_cons_of_ne (by norm_num), List.count_replicate_self]
        simp
    · have hv' : v ∈ cs := (List.mem_cons.mp hv).resolve_left hvc
      have hlen : 0 < cs.length := List.length_pos.mpr (List.ne_nil_of_mem hv')
      obtain ⟨ih1, ih0⟩ := ih hv' (List.nodup_cons.mp hnd).2
      rw [if_neg hvc,
        show (cs.map fun x => if v = x then (1 : ℚ) else 0) = oneHot cs v from rfl]
      constructor
      · rw [List.count_cons_of_ne (by norm_num), ih1]
      · rw [List.count_cons_self, ih0, List.length_cons]
        omega

/-- Values replaced only when null or non-positive stay positive when the
default is positive. -/
theorem orDefault_pos (v : Option ℚ) {d : ℚ} (hd : 0 < d) : 0 < orDefault v d := by
  rcases v with _ | x
  · exact hd
  · rw [orDefault]
    split_ifs with h
    · exact hd
    · exact lt_of_not_le h

/-- Capping from above by a positive bound preserves positivity. -/
theorem cap_pos {x c : ℚ} (hx : 0 < x) (hc : 0 < c) :
    0 < if x > c then c else x := by
  split_ifs <;> assumption

/-! ## The claims -/

/-- **C1** (counterexample). For the input `{location: "Tembalang",
building_area: "120 m2", bedrooms: 3}` the claim's expected value
`electrical_capacity = 1300` is false: the numeric cleaner keeps the digit
of the unit `m2`, so `"120 m2"` parses to `1202`, the capacity heuristic
sees a building area `≥ 200` and imputes `2200`. -/
theorem c1_counterexample :
    clean_numeric_string (RawVal.str "120 m2") = some 1202 ∧
    (preprocess_input c1_input).record.daya_listrik = 2200 ∧
    (preprocess_input c1_input).record.daya_listrik ≠ 1300 ∧
    (preprocess_input c1_input).record.jumlah_lantai ≠ 1 := by
  decide

/-- **C1** (amended). For that input, preprocessing yields zone
`Semarang Timur`, bedrooms `3` with no imputation, bathrooms imputed to
`2`, land area imputed to `150`; building area parses to `1202` (the digit
of `m2` survives the cleaner), is not imputed, and is clamped to `1000`;
electrical capacity is imputed to `2200` (since `1202 ≥ 200`) and floors
to `2` (since `1202 ≥ 150`); the imputed-field list contains bathrooms,
land area, electrical capacity and floors but neither building area nor
bedrooms. -/
theorem c1_preprocessing :
    (preprocess_input c1_input).zona = "Semarang Timur" ∧
    (preprocess_input c1_input).record.kamar_tidur = 3 ∧
    "Kamar Tidur" ∉ (preprocess_input c1_input).missing_fields ∧
    (preprocess_input c1_input).record.kamar_mandi = 2 ∧
    "Kamar Mandi" ∈ (preprocess_input c1_input).missing_fields ∧
    (preprocess_input c1_input).record.luas_tanah = 150 ∧
    "Luas Tanah" ∈ (preprocess_input c1_input).missing_fields ∧
    (preprocess_input c1_input).record.luas_bangunan = 1000 ∧
    "Luas Bangunan" ∉ (preprocess_input c1_input).missing_fields ∧
    (preprocess_input c1_input).record.daya_listrik = 2200 ∧
    "Daya Listrik" ∈ (preprocess_input c1_input).missing_fields ∧
    (preprocess_input c1_input).record.jumlah_lantai = 2 ∧
    "Jumlah Lantai" ∈ (preprocess_input c1_input).missing_fields := by
  decide

/-- The resolution procedure exactly as the specification words it:
(a) exact table match, else (b) first case-insensitive two-way substring
match in table iteration order, else (c) the `Other` zone. -/
def zoneResolveSpec (c : String) : String :=
  match zona_mapping.find? (fun p => p.1 == c) with
  | some p => p.2
  | Option.none =>
    match zona_mapping.find? (fun p => fuzzyTest p.1 c) with
    | some p => p.2
    | Option.none => "Semarang Lainnya"

/-- **C2** (counterexample). An empty location does NOT yield the `Other`
zone: the empty candidate is a substring of every key, so the first table
entry wins the fuzzy match and the result is `Semarang Barat`. -/
theorem c2_counterexample :
    map_lokasi_to_zona (some "") = "Semarang Barat" ∧
    map_lokasi_to_zona (some "") ≠ "Semarang Lainnya" := by
  decide

/-- **C2** (amended). For every location, the zone mapper resolves in the
claimed order — exact table match, else first case-insensitive two-way
substring match in table iteration order, else the `Other` zone
`Semarang Lainnya` — and a null location yields `Other`; but an empty
location yields `Semarang Barat` (the first table entry fuzzy-matches the
empty candidate), not `Other`. -/
theorem c2_resolution :
    map_lokasi_to_zona Option.none = "Semarang Lainnya" ∧
    (∀ l, map_lokasi_to_zona (some l) = zoneResolveSpec (normalize_lokasi l)) ∧
    map_lokasi_to_zona (some "") = "Semarang Barat" := by
  refine ⟨rfl, fun l => ?_, by decide⟩
  simp only [map_lokasi_to_zona]
  rw [zoneResolveSpec]
  cases h1 : zona_mapping.find? (fun p => p.1 == normalize_lokasi l) with
  | some e =>
    rw [lookupDict_eq_find, h1]
    rfl
  | none =>
    rw [lookupDict_eq_find, h1]
    cases h2 : zona_mapping.find? (fun p => fuzzyTest p.1 (normalize_lokasi l)) with
    | some e =>
      rw [fuzzyLoop_eq_find, h2]
      rfl
    | none =>
      rw [fuzzyLoop_eq_find, h2]
      rfl

/-- **C3** (counterexample). The Imputer is not a no-op on second
application for every fully-populated, in-range record: on the record
with furnishing text `Lengkap` the first pass standardizes it to
`Furnished`, and the second pass moves `Furnished` to `Tidak Berperabot`,
so the second application changes a value. -/
theorem c3_counterexample :
    (impute_and_clamp (record_to_input lengkap_record)).1.kondisi_perabotan
      = "Furnished" ∧
    (impute_and_clamp (record_to_input
        (impute_and_clamp (record_to_input lengkap_record)).1)).1.kondisi_perabotan
      = "Tidak Berperabot" ∧
    (impute_and_clamp (record_to_input
        (impute_and_clamp (record_to_input lengkap_record)).1)).1
      ≠ (impute_and_clamp (record_to_input lengkap_record)).1 := by
  decide

/-- **C3** (amended). Running the Imputer (normalization, imputation,
condition standardization and range clamps) on an already-fully-populated,
in-range record whose condition fields are standardizer fixed points
(`Bagus` or `Renovasi`; `Tidak Berperabot` or `Semi Furnished`) is a
no-op — no imputed fields reported, no values changed — hence so is
running it twice; the canonical label `Furnished` must be excluded, since
the standardizer maps it to `Tidak Berperabot`. -/
theorem c3_idempotence (r : Record)
    (h1 : 0 < r.kamar_tidur) (h2 : r.kamar_tidur ≤ 10)
    (h3 : 0 < r.kamar_mandi) (h4 : r.kamar_mandi ≤ 10)
    (h5 : 0 < r.luas_tanah) (h6 : r.luas_tanah ≤ 2000)
    (h7 : 0 < r.luas_bangunan) (h8 : r.luas_bangunan ≤ 1000)
    (h9 : r.carport ≤ 5)
    (h10 : 0 < r.daya_listrik)
    (h11 : 0 < r.jumlah_lantai) (h12 : r.jumlah_lantai ≤ 4)
    (hp : r.kondisi_properti = "Bagus" ∨ r.kondisi_properti = "Renovasi")
    (hf : r.kondisi_perabotan = "Tidak Berperabot" ∨
          r.kondisi_perabotan = "Semi Furnished") :
    impute_and_clamp (record_to_input r) = (r, []) := by
  have hsp : standardize_kondisi (some r.kondisi_properti) .properti = r.kondisi_properti := by
    rcases hp with h | h <;> rw [h] <;> decide
  have hsf : standardize_kondisi (some r.kondisi_perabotan) .perabotan = r.kondisi_perabotan := by
    rcases hf with h | h <;> rw [h] <;> decide
  simp only [impute_and_clamp, impute_record, record_to_input, clamp_record,
    orDefault, needsDefault, Option.isNone, hsp, hsf]
  simp only [not_le.mpr h1, not_le.mpr h3, not_le.mpr h5, not_le.mpr h7,
    not_le.mpr h10, not_le.mpr h11, not_lt.mpr h2, not_lt.mpr h4, not_lt.mpr h6,
    not_lt.mpr h8, not_lt.mpr h9, not_lt.mpr h12, decide_False,
    if_false, Bool.false_eq_true, List.append_nil, List.nil_append]

/-- **C3** (witness): the amended no-op theorem applied to a concrete
fully-populated, in-range record. -/
theorem c3_idempotence_witness :
    impute_and_clamp (record_to_input
      { kamar_tidur := 3, kamar_mandi := 2, luas_tanah := 150, luas_bangunan := 120,
        carport := 1, daya_listrik := 1300, jumlah_lantai := 1,
        kondisi_properti := "Bagus", kondisi_perabotan := "Tidak Berperabot" })
    = ({ kamar_tidur := 3, kamar_mandi := 2, luas_tanah := 150, luas_bangunan := 120,
         carport := 1, daya_listrik := 1300, jumlah_lantai := 1,
         kondisi_properti := "Bagus", kondisi_perabotan := "Tidak Berperabot" }, []) :=
  c3_idempotence _ (by norm_num) (by norm_num) (by norm_num) (by norm_num)
    (by norm_num) (by norm_num) (by norm_num) (by norm_num) (by norm_num)
    (by norm_num) (by norm_num) (by norm_num) (Or.inl rfl) (Or.inl rfl)

/-- **C10**. `Furnished` and `Berperabot` both standardize to
`Tidak Berperabot`: `Furnished` is caught by the earlier key
`Unfurnished` (of which it is a substring) and `Berperabot` by the earlier
key `Tidak Berperabot`; and since `Lengkap` standardizes to `Furnished`,
the standardizer is not the identity on its own output set. -/
theorem c10_furnished_shadowed :
    standardize_kondisi (some "Furnished") .perabotan = "Tidak Berperabot" ∧
    standardize_kondisi (some "Berperabot") .perabotan = "Tidak Berperabot" ∧
    (kondisi_mapping .perabotan).find?
        (fun p => kondisiTest p.1 (pyTitle (pyStrip "Furnished")))
      = some ("Unfurnished", "Tidak Berperabot") ∧
    (kondisi_mapping .perabotan).find?
        (fun p => kondisiTest p.1 (pyTitle (pyStrip "Berperabot")))
      = some ("Tidak Berperabot", "Tidak Berperabot") ∧
    standardize_kondisi (some "Lengkap") .perabotan = "Furnished" ∧
    standardize_kondisi (some (standardize_kondisi (some "Lengkap") .perabotan)) .perabotan
      ≠ standardize_kondisi (some "Lengkap") .perabotan := by
  decide

/-- **C4**. The final price is the ensemble meta-model's output when one
is present, otherwise the weighted average of the per-model predictions
when weights are configured, otherwise their arithmetic mean, clamped to
be non-negative; for the bundle of 3 models returning
`[900e6, 1000e6, 1100e6]` with no meta-model and equal weights the final
price is `1,000,000,000`, the category is `Menengah`, and the
uncertainty — the population standard deviation of the predictions, i.e.
the square root of `uncertainty_sq` — lies strictly between `81,649,658`
and `81,649,659`. -/
theorem c4_ensemble :
    (∀ B x em, B.ensemble_model = some em →
      final_prediction B x = max (em x) 0) ∧
    (∀ B x, B.ensemble_model = Option.none → B.model_weights ≠ [] →
      final_prediction B x = max (np_average (model_predictions B x) B.model_weights) 0) ∧
    (∀ B x, B.ensemble_model = Option.none → B.model_weights = [] →
      final_prediction B x = max (np_mean (model_predictions B x)) 0) ∧
    final_prediction c4_bundle [] = 1000000000 ∧
    classify_harga (final_prediction c4_bundle []) = "Menengah" ∧
    uncertainty_sq c4_bundle [] = 20000000000000000 / 3 ∧
    (81649658 : ℝ) < Real.sqrt ((uncertainty_sq c4_bundle [] : ℚ) : ℝ) ∧
    Real.sqrt ((uncertainty_sq c4_bundle [] : ℚ) : ℝ) < 81649659 := by
  have hmeta : ∀ B x em, B.ensemble_model = some em →
      final_prediction B x = max (em x) 0 := by
    intro B x em h
    simp [final_prediction, h]
  have hweight : ∀ B x, B.ensemble_model = Option.none → B.model_weights ≠ [] →
      final_prediction B x = max (np_average (model_predictions B x) B.model_weights) 0 := by
    intro B x h1 h2
    simp [final_prediction, h1, h2]
  have hmean : ∀ B x, B.ensemble_model = Option.none → B.model_weights = [] →
      final_prediction B x = max (np_mean (model_predictions B x)) 0 := by
    intro B x h1 h2
    simp [final_prediction, h1, h2]
  have hpreds : model_predictions c4_bundle [] = [900000000, 1000000000, 1100000000] := rfl
  have havg : np_average (model_predictions c4_bundle []) c4_bundle.model_weights
      = 1000000000 := by
    rw [hpreds, show c4_bundle.model_weights = [1, 1, 1] from rfl]
    simp only [np_average, List.zipWith_cons_cons, List.zipWith_nil_right,
      List.sum_cons, List.sum_nil]
    norm_num
  have hfinal : final_prediction c4_bundle [] = 1000000000 := by
    rw [hweight c4_bundle [] rfl (by simp [c4_bundle]), havg]
    exact max_eq_left (by norm_num)
  have hq : uncertainty_sq c4_bundle [] = 20000000000000000 / 3 := by
    rw [show uncertainty_sq c4_bundle []
        = pop_variance (model_predictions c4_bundle []) from rfl, hpreds]
    simp only [pop_variance, np_mean, List.map_cons, List.map_nil, List.sum_cons,
      List.sum_nil, List.length_cons, List.length_nil]
    norm_num
  have hcast : ((uncertainty_sq c4_bundle [] : ℚ) : ℝ) = 20000000000000000 / 3 := by
    rw [hq]
    push_cast
    ring
  refine ⟨hmeta, hweight, hmean, hfinal, ?_, hq, ?_, ?_⟩
  · rw [hfinal]
    norm_num [classify_harga]
  · rw [hcast]
    exact (Real.lt_sqrt (by norm_num)).mpr (by norm_num)
  · rw [hcast]
    exact (Real.sqrt_lt' (by norm_num)).mpr (by norm_num)

/-- **C4** (witness): the three combination rules applied to concrete
bundles — a meta-model override, configured weights, and the plain
mean. -/
theorem c4_ensemble_witness :
    final_prediction c4_meta_bundle [] = 1500000000 ∧
    final_prediction c4_weight_bundle [] = 2 ∧
    final_prediction c4_mean_bundle [] = 5 := by
  refine ⟨?_, ?_, ?_⟩
  · rw [c4_ensemble.1 c4_meta_bundle [] (fun _ => 1500000000) rfl]
    exact max_eq_left (by norm_num)
  · rw [c4_ensemble.2.1 c4_weight_bundle [] rfl (by simp [c4_weight_bundle])]
    rw [show model_predictions c4_weight_bundle [] = [1, 4] from rfl,
      show c4_weight_bundle.model_weights = [2, 1] from rfl]
    simp only [np_average, List.zipWith_cons_cons, List.zipWith_nil_right,
      List.sum_cons, List.sum_nil]
    rw [max_eq_left (by norm_num)]
    norm_num
  · rw [c4_ensemble.2.2.1 c4_mean_bundle [] rfl rfl]
    rw [show model_predictions c4_mean_bundle [] = [4, 6] from rfl]
    simp only [np_mean, List.sum_cons, List.sum_nil, List.length_cons, List.length_nil]
    rw [max_eq_left (by norm_num)]
    norm_num

/-- **C5**. The categorical standardizer maps null to the kind's default
canonical label (`Bagus` for property, `Tidak Berperabot` for
furnishing); otherwise it title-cases the stripped text and returns the
value of the first synonym-table entry (in insertion order) matching
case-insensitively by substring in either direction; with no table match
it returns the value of the FIRST table entry; and the result is always a
canonical table value, never the literal input. -/
theorem c5_standardize (s : String) (t : KType) :
    standardize_kondisi Option.none KType.properti = "Bagus" ∧
    standardize_kondisi Option.none KType.perabotan = "Tidak Berperabot" ∧
    (∀ e, (kondisi_mapping t).find?
        (fun p => kondisiTest p.1 (pyTitle (pyStrip s))) = some e →
      standardize_kondisi (some s) t = e.2) ∧
    ((kondisi_mapping t).find?
        (fun p => kondisiTest p.1 (pyTitle (pyStrip s))) = Option.none →
      standardize_kondisi (some s) t = ((kondisi_mapping t).headD ("", "")).2) ∧
    standardize_kondisi (some s) t ∈ (kondisi_mapping t).map Prod.snd := by
  refine ⟨rfl, rfl, ?_, ?_, standardize_mem (some s) t⟩
  · intro e he
    simp only [standardize_kondisi, kondisiLoop_eq_find, he, Option.map_some']
  · intro hn
    simp only [standardize_kondisi, kondisiLoop_eq_find, hn, Option.map_none']

/-- **C5** (witness): a synonym hit (`Baik` → `Bagus`) and a no-match
fallback to the first table value (`Zzz` → `Tidak Berperabot`). -/
theorem c5_standardize_witness :
    standardize_kondisi (some "Baik") KType.properti = "Bagus" ∧
    standardize_kondisi (some "Zzz") KType.perabotan = "Tidak Berperabot" := by
  constructor
  · exact (c5_standardize "Baik" KType.properti).2.2.1 ("Baik", "Bagus") (by decide)
  · exact (c5_standardize "Zzz" KType.perabotan).2.2.2.1 (by decide)

/-- **C6**. The electrical-tier classifier follows the threshold ladder
with boundaries inclusive on the lower tier: null yields
`Menengah_1300VA`, and for every capacity `c` the tier is determined by
the first threshold with `c ≤` it; in particular `450` is `Dasar_450VA`
and `451` is `Standar_900VA`. -/
theorem c6_classify :
    classify_daya Option.none = "Menengah_1300VA" ∧
    (∀ c : ℚ,
      (c ≤ 450 → classify_daya (some c) = "Dasar_450VA") ∧
      (450 < c ∧ c ≤ 900 → classify_daya (some c) = "Standar_900VA") ∧
      (900 < c ∧ c ≤ 1300 → classify_daya (some c) = "Menengah_1300VA") ∧
      (1300 < c ∧ c ≤ 2200 → classify_daya (some c) = "Tinggi_2200VA") ∧
      (2200 < c ∧ c ≤ 3500 → classify_daya (some c) = "Premium_3500VA") ∧
      (3500 < c ∧ c ≤ 5500 → classify_daya (some c) = "Luxury_5500VA") ∧
      (5500 < c → classify_daya (some c) = "Ultra_5500VA_Plus")) ∧
    classify_daya (some 450) = "Dasar_450VA" ∧
    classify_daya (some 451) = "Standar_900VA" := by
  refine ⟨rfl, fun c => ?_, by decide, by decide⟩
  refine ⟨fun h => ?_, fun h => ?_, fun h => ?_, fun h => ?_,
    fun h => ?_, fun h => ?_, fun h => ?_⟩
  all_goals simp only [classify_daya]
  · rw [if_pos h]
  · rw [if_neg (not_le.mpr h.1), if_pos h.2]
  · rw [if_neg (not_le.mpr (by linarith [h.1])), if_neg (not_le.mpr h.1), if_pos h.2]
  · rw [if_neg (not_le.mpr (by linarith [h.1])), if_neg (not_le.mpr (by linarith [h.1])),
      if_neg (not_le.mpr h.1), if_pos h.2]
  · rw [if_neg (not_le.mpr (by linarith [h.1])), if_neg (not_le.mpr (by linarith [h.1])),
      if_neg (not_le.mpr (by linarith [h.1])), if_neg (not_le.mpr h.1), if_pos h.2]
  · rw [if_neg (not_le.mpr (by linarith [h.1])), if_neg (not_le.mpr (by linarith [h.1])),
      if_neg (not_le.mpr (by linarith [h.1])), if_neg (not_le.mpr (by linarith [h.1])),
      if_neg (not_le.mpr h.1), if_pos h.2]
  · rw [if_neg (not_le.mpr (by linarith)), if_neg (not_le.mpr (by linarith)),
      if_neg (not_le.mpr (by linarith)), if_neg (not_le.mpr (by linarith)),
      if_neg (not_le.mpr (by linarith)), if_neg (not_le.mpr h)]

/-- **C6** (witness): the ladder applied at one interior point of every
tier. -/
theorem c6_classify_witness :
    classify_daya (some 300) = "Dasar_450VA" ∧
    classify_daya (some 700) = "Standar_900VA" ∧
    classify_daya (some 1000) = "Menengah_1300VA" ∧
    classify_daya (some 2000) = "Tinggi_2200VA" ∧
    classify_daya (some 3000) = "Premium_3500VA" ∧
    classify_daya (some 5000) = "Luxury_5500VA" ∧
    classify_daya (some 9000) = "Ultra_5500VA_Plus" :=
  ⟨(c6_classify.2.1 300).1 (by norm_num),
   (c6_classify.2.1 700).2.1 ⟨by norm_num, by norm_num⟩,
   (c6_classify.2.1 1000).2.2.1 ⟨by norm_num, by norm_num⟩,
   (c6_classify.2.1 2000).2.2.2.1 ⟨by norm_num, by norm_num⟩,
   (c6_classify.2.1 3000).2.2.2.2.1 ⟨by norm_num, by norm_num⟩,
   (c6_classify.2.1 5000).2.2.2.2.2.1 ⟨by norm_num, by norm_num⟩,
   (c6_classify.2.1 9000).2.2.2.2.2.2 (by norm_num)⟩

/-- **C7**. A batch of more than 100 items is rejected up front with no
results; an accepted batch produces exactly one result entry per item,
preserving input order and the original index — an entry error-tagged
with the item's failure message exactly when the per-item predictor
failed there — and the batch carries the success and failure counts. -/
theorem c7_batch (f : PropertyInput → Except String ℚ) (props : List PropertyInput) :
    (props.length > 100 →
      batch_predict f props = Except.error "Maximum 100 properties per batch request") ∧
    (props.length ≤ 100 →
      batch_predict f props = Except.ok (run_batch f props)) ∧
    (run_batch f props).total_properties = props.length ∧
    (run_batch f props).results.length = props.length ∧
    (∀ i p, props[i]? = some p →
      (∀ q, f p = Except.ok q →
        (run_batch f props).results[i]? = some (BatchItem.ok i q)) ∧
      (∀ e, f p = Except.error e →
        (run_batch f props).results[i]? = some (BatchItem.err i e))) ∧
    (run_batch f props).successful_predictions
      = (props.filter (fun p => ! exceptFailed (f p))).length ∧
    (run_batch f props).failed_predictions
      = (props.filter (fun p => exceptFailed (f p))).length ∧
    (run_batch f props).successful_predictions + (run_batch f props).failed_predictions
      = props.length := by
  refine ⟨fun h => by simp [batch_predict, h], fun h => by simp [batch_predict, Nat.not_lt.mpr h],
    rfl, ?_, ?_, ?_, ?_, ?_⟩
  · show ((enumFromIdx 0 props).map (batch_item f)).length = props.length
    rw [List.length_map, enumFromIdx_length]
  · intro i p hp
    have hres : (run_batch f props).results[i]? = some (batch_item f (i, p)) := by
      show ((enumFromIdx 0 props).map (batch_item f))[i]? = _
      rw [List.getElem?_map, enumFromIdx_getElem?, hp]
      simp
    constructor
    · intro q hq
      rw [hres]
      simp [batch_item, hq]
    · intro e he
      rw [hres]
      simp [batch_item, he]
  · exact filterOk_length f 0 props
  · exact filterErr_length f 0 props
  · have h1 := filterOk_length f 0 props
    have h2 := filterErr_length f 0 props
    show (((enumFromIdx 0 props).map (batch_item f)).filter (fun r => ! r.isErr)).length
        + (((enumFromIdx 0 props).map (batch_item f)).filter (fun r => r.isErr)).length
      = props.length
    rw [h1, h2, Nat.add_comm]
    exact filter_not_length (fun p => exceptFailed (f p)) props

/-- **C7** (witness): a 101-item batch is rejected, and in an accepted
3-item batch whose middle item fails, the middle entry is error-tagged at
index 1, the other entries succeed at their indices, and the counts are
2 successes and 1 failure. -/
theorem c7_batch_witness :
    batch_predict c7_predictor (List.replicate 101 c1_input)
      = Except.error "Maximum 100 properties per batch request" ∧
    batch_predict c7_predictor c7_props = Except.ok (run_batch c7_predictor c7_props) ∧
    (run_batch c7_predictor c7_props).results[1]? = some (BatchItem.err 1 "boom") ∧
    (run_batch c7_predictor c7_props).results[0]? = some (BatchItem.ok 0 42) ∧
    (run_batch c7_predictor c7_props).failed_predictions = 1 ∧
    (run_batch c7_predictor c7_props).successful_predictions = 2 := by
  refine ⟨(c7_batch c7_predictor _).1 (by simp),
    (c7_batch c7_predictor _).2.1 (by simp [c7_props]),
    ((c7_batch c7_predictor c7_props).2.2.2.2.1 1 c7_fail_input rfl).2 "boom" rfl,
    ((c7_batch c7_predictor c7_props).2.2.2.2.1 0 c1_input rfl).1 42 rfl,
    ?_, ?_⟩
  · rw [(c7_batch c7_predictor c7_props).2.2.2.2.2.2.1]
    decide
  · rw [(c7_batch c7_predictor c7_props).2.2.2.2.2.1]
    decide

/-- **C8**. For every input, each one-hot group of the preprocessed
record — the 6 zone indicators, the 7 electrical-tier indicators, the 2
property-condition indicators and the 3 furnishing-condition
indicators — holds exactly one `1`, all remaining entries `0`. -/
theorem c8_onehot (inp : PropertyInput) :
    ((preprocess_input inp).zona_onehot.count 1 = 1 ∧
     (preprocess_input inp).zona_onehot.count 0 = 5) ∧
    ((preprocess_input inp).daya_onehot.count 1 = 1 ∧
     (preprocess_input inp).daya_onehot.count 0 = 6) ∧
    ((preprocess_input inp).properti_onehot.count 1 = 1 ∧
     (preprocess_input inp).properti_onehot.count 0 = 1) ∧
    ((preprocess_input inp).perabotan_onehot.count 1 = 1 ∧
     (preprocess_input inp).perabotan_onehot.count 0 = 2) := by
  have hsubp : ∀ v ∈ (kondisi_mapping KType.properti).map Prod.snd,
      v ∈ all_kondisi_properti := by decide
  have hsubf : ∀ v ∈ (kondisi_mapping KType.perabotan).map Prod.snd,
      v ∈ all_kondisi_perabotan := by decide
  refine ⟨?_, ?_, ?_, ?_⟩
  · exact oneHot_count (map_lokasi_mem (some inp.lokasi)) (by decide)
  · exact oneHot_count
      (classify_daya_mem (some (preprocess_input inp).record.daya_listrik)) (by decide)
  · exact oneHot_count
      (hsubp _ (standardize_mem (parse_input inp).kondisi_properti KType.properti))
      (by decide)
  · exact oneHot_count
      (hsubf _ (standardize_mem (parse_input inp).kondisi_perabotan KType.perabotan))
      (by decide)

/-- **C9**. For every input, the imputed and clamped record has strictly
positive land area, building area and bedroom count — nulls and
non-positive values are replaced by positive defaults and the clamps only
cap from above — so each division of the derived-feature step
(building/land, building/bedrooms, bathrooms/bedrooms, capacity/building)
has a non-zero denominator. -/
theorem c9_denominators (inp : PropertyInput) :
    0 < (preprocess_input inp).record.luas_tanah ∧
    0 < (preprocess_input inp).record.luas_bangunan ∧
    0 < (preprocess_input inp).record.kamar_tidur ∧
    (preprocess_input inp).record.luas_tanah ≠ 0 ∧
    (preprocess_input inp).record.luas_bangunan ≠ 0 ∧
    (preprocess_input inp).record.kamar_tidur ≠ 0 := by
  have h1 : 0 < (preprocess_input inp).record.luas_tanah := by
    show 0 < if orDefault (parse_input inp).luas_tanah 150 > 2000 then 2000
      else orDefault (parse_input inp).luas_tanah 150
    exact cap_pos (orDefault_pos _ (by norm_num)) (by norm_num)
  have h2 : 0 < (preprocess_input inp).record.luas_bangunan := by
    show 0 < if orDefault (parse_input inp).luas_bangunan 120 > 1000 then 1000
      else orDefault (parse_input inp).luas_bangunan 120
    exact cap_pos (orDefault_pos _ (by norm_num)) (by norm_num)
  have h3 : 0 < (preprocess_input inp).record.kamar_tidur := by
    show 0 < if orDefault (parse_input inp).kamar_tidur 3 > 10 then 10
      else orDefault (parse_input inp).kamar_tidur 3
    exact cap_pos (orDefault_pos _ (by norm_num)) (by norm_num)
  exact ⟨h1, h2, h3, ne_of_gt h1, ne_of_gt h2, ne_of_gt h3⟩

end SmartHome
